import Mathlib

/-!
Verification of the fridge-thing Inkplate 6COLOR firmware
(`src/devices/inkplate-6color/inkplate-6color.ino`, the most complete
snapshot, firmware version "1.8") against its design specification.

The firmware is shallowly embedded: each C++ function is translated into a
pure Lean function that threads an explicit device context (`Ctx`, the
module-level globals plus the durable `Preferences` key-value store) and
emits a trace of observable `Action`s (journal writes, radio operations,
HTTP requests, wake-source arming, deep sleep, restart).  External results
(Wi-Fi status, HTTP status codes, response bodies, download/render success)
are supplied by environment records, one field per external read, so every
control path of the source is represented.

Serial prints, `logEvent`, `delay`, and the e-paper status drawing
(`updateStateDisplay`) are omitted from the embedding: they mutate no
persisted state and no control flow of the claims depends on them; the one
e-paper refresh on the provisioning/connect-failure screens is kept as an
opaque `displayRefresh` action.  `float` arithmetic is modelled over `ℚ`.
Arduino `millis()` values are 32-bit unsigned; their subtraction is
modelled with `sub32`.
-/

namespace FridgeThing

/-! ### State and error constants (the `#define`s of the source) -/

def STATE_INITIALIZING : Nat := 0
def STATE_CONNECTING_WIFI : Nat := 2
def STATE_CHECKING_UPDATE : Nat := 3
def STATE_UPDATING_FW : Nat := 4
def STATE_FETCHING_IMAGE : Nat := 5
def STATE_DISPLAYING_IMAGE : Nat := 6
def STATE_ERROR : Nat := 7
def STATE_SLEEPING : Nat := 8

def ERROR_NONE : Nat := 0
def ERROR_WIFI_CONNECT : Nat := 1
def ERROR_SERVER_CONNECT : Nat := 2
def ERROR_IMAGE_DOWNLOAD : Nat := 3
def ERROR_SD_CARD : Nat := 4
def ERROR_OTA_UPDATE : Nat := 5
def ERROR_LOW_BATTERY : Nat := 6

def WIFI_CHECK_INTERVAL : Nat := 60000

def BATTERY_CRITICAL_PCT : ℚ := 5

def currentFirmwareVersion : String := "1.8"

def versionCheckURL : String :=
  "https://s3.us-west-1.amazonaws.com/fridge-thing/firmware/version.txt"

def firmwareURL : String :=
  "https://s3.us-west-1.amazonaws.com/fridge-thing/firmware/inkplate-6color.ino.bin"

/-! ### Arduino `String` helpers modelled on `List Char` -/

/-- Boolean prefix test on char lists (Arduino `String::startsWith`). -/
def isPrefixOfC : List Char → List Char → Bool
  | [], _ => true
  | _ :: _, [] => false
  | a :: as, b :: bs => a == b && isPrefixOfC as bs

/-- `String::indexOf(pat)` search from running index `i`: the absolute index
of the first occurrence of `pat`, or `none`. -/
def listIndexOfAux (pat : List Char) : List Char → Nat → Option Nat
  | [], i => if pat = [] then some i else none
  | a :: rest, i =>
      if isPrefixOfC pat (a :: rest) then some i
      else listIndexOfAux pat rest (i + 1)

def listIndexOf (l pat : List Char) : Option Nat := listIndexOfAux pat l 0

/-- `String::indexOf(ch, fromIndex)`: absolute index of the first occurrence
of `c` at or after `start`. -/
def listIndexOfCharFrom (l : List Char) (c : Char) (start : Nat) : Option Nat :=
  match listIndexOfAux [c] (l.drop start) 0 with
  | some j => some (start + j)
  | none => none

/-- `String::substring(a, b)`: the characters of indices `[a, b)`. -/
def listSub (l : List Char) (a b : Nat) : List Char := (l.drop a).take (b - a)

/-- `isspace` as used by Arduino `String::trim`. -/
def wsChar (c : Char) : Bool :=
  c == ' ' || c == '\t' || c == '\n' || c == Char.ofNat 11 || c == Char.ofNat 12 || c == '\r'

/-- Arduino `String::trim`: drop leading and trailing whitespace. -/
def listTrim (l : List Char) : List Char :=
  ((l.dropWhile wsChar).reverse.dropWhile wsChar).reverse

def strTrimS (s : String) : String := ⟨listTrim s.data⟩

def startsWithStr (s pre : String) : Bool := isPrefixOfC pre.data s.data

/-- Arduino `String::replace(find, rep)`: replace every occurrence,
left to right, scanning the replaced-in text once.  Fuel-structured so the
kernel can evaluate it; the initial fuel is the string length, which bounds
the scan since each step consumes at least one character. -/
def replaceAux (pat rep : List Char) : Nat → List Char → List Char
  | _, [] => []
  | 0, l => l
  | fuel + 1, a :: rest =>
      if pat ≠ [] ∧ isPrefixOfC pat (a :: rest) then
        rep ++ replaceAux pat rep fuel (List.drop (pat.length - 1) rest)
      else
        a :: replaceAux pat rep fuel rest

def replaceS (s pat rep : String) : String :=
  ⟨replaceAux pat.data rep.data s.data.length s.data⟩

/-- 32-bit unsigned subtraction, as in `millis() - lastWifiCheckTime`. -/
def sub32 (a b : Nat) : Nat := (a + 2 ^ 32 - b % 2 ^ 32) % 2 ^ 32

def netKey : List Char := ['N', 'E', 'T', 'W', 'O', 'R', 'K', '=']

def passKey : List Char := ['P', 'A', 'S', 'S', 'W', 'O', 'R', 'D', '=']

/-! ### The data model: durable store, globals, observable actions -/

/-- The durable `Preferences` key-value entries the firmware uses:
`state.lastState`, `state.errorCode`, `sleep.nextWake`, `wifi.ssid`,
`wifi.password`. -/
structure Prefs where
  stateLastState : Nat
  stateErrorCode : Nat
  sleepNextWake : Int
  wifiSsid : String
  wifiPassword : String
deriving DecidableEq

/-- The module-level globals of the sketch plus the durable store. -/
structure Ctx where
  currentState : Nat
  errorCode : Nat
  wifiReconnectAttempts : Nat
  sdCardAvailable : Bool
  lastWifiCheckTime : Nat
  prefs : Prefs
deriving DecidableEq

/-- Observable side effects of a boot cycle, in program order. -/
inductive Action where
  | persistState (lastState errorCode : Nat)
  | persistNextWake (secs : Int)
  | persistWifiCreds (ssid password : String)
  | wifiConnectAttempt (ssid password : String)
  | wifiBeginStored
  | wifiDisconnect (eraseConfig : Bool)
  | wifiModeOff
  | wifiRadioStop
  | wifiPowerSave
  | httpPost (url : String)
  | httpGetVersion (url : String)
  | otaAttempt (url : String) (secure : Bool)
  | download (url : String)
  | render (path : String)
  | displayRefresh
  | rtcSet
  | sdSleep
  | enableTimerWakeupUs (us : Int)
  | enableExt0Wakeup
  | deepSleepStart
  | espRestart
deriving DecidableEq

/-! ### Leaf functions -/

/-- `voltageToPercent` (lines 83-88): linear 3.2V-4.2V map, clamped high
then low, over `ℚ` in place of `float`. -/
def voltageToPercent (voltage : ℚ) : ℚ :=
  let pct := (voltage - 3.2) * 100 / (4.2 - 3.2)
  let pct2 := if pct > 100 then (100 : ℚ) else pct
  if pct2 < 0 then 0 else pct2

/-- `setState` (lines 206-224): persist `state.lastState := currentState`
(the state being exited) and `state.errorCode := newErrorCode`, then update
the in-RAM state.  Logging and the conditional status drawing are omitted
(no persisted effect). -/
def setState (ctx : Ctx) (newState newErrorCode : Nat) : Ctx × List Action :=
  ({ ctx with
      prefs := { ctx.prefs with
                  stateLastState := ctx.currentState
                  stateErrorCode := newErrorCode }
      currentState := newState
      errorCode := newErrorCode },
   [Action.persistState ctx.currentState newErrorCode])

/-- The sleep-interval clamp of `fetchAndDisplayImage` (lines 770-780):
raise below-60 values to 60, then cap above-86400 values at 86400. -/
def clampWake (n : Int) : Int :=
  let n1 := if n < 60 then (60 : Int) else n
  if n1 > 86400 then 86400 else n1

/-! ### The credential reader -/

/-- `readWiFiCredentialsFromSD` (lines 302-364).  `file` is the content of
`/wifi.txt`, `none` when the SD card has no such file.  Returns the parsed
`(ssid, password)` on success; on success it also mirrors both values into
the persistent `wifi` namespace (`persistWifiCreds`).  The parse follows the
source exactly: `indexOf("NETWORK=")` / `indexOf("PASSWORD=")` anywhere in
the content, value up to the next newline (or end of file), trimmed. -/
def readWiFiCredentialsFromSD (ctx : Ctx) (file : Option String) :
    Option (String × String) × Ctx × List Action :=
  if ctx.sdCardAvailable = false then (none, ctx, [])
  else
    match file with
    | none => (none, ctx, [])
    | some content =>
      let cs := content.data
      match listIndexOf cs netKey with
      | none => (none, ctx, [])
      | some networkPos =>
        let ssidEnd :=
          match listIndexOfCharFrom cs '\n' networkPos with
          | some e => e
          | none => cs.length
        let ssid := listTrim (listSub cs (networkPos + 8) ssidEnd)
        match listIndexOf cs passKey with
        | none => (none, ctx, [])
        | some passwordPos =>
          let pwEnd :=
            match listIndexOfCharFrom cs '\n' passwordPos with
            | some e => e
            | none => cs.length
          let password := listTrim (listSub cs (passwordPos + 9) pwEnd)
          let ssidS : String := ⟨ssid⟩
          let passS : String := ⟨password⟩
          (some (ssidS, passS),
           { ctx with prefs := { ctx.prefs with wifiSsid := ssidS, wifiPassword := passS } },
           [Action.persistWifiCreds ssidS passS])

/-! ### The connectivity manager -/

/-- External reads made by `checkAndReconnectWifi`: the radio's connection
status at entry, the current `millis()` value, the `/wifi.txt` content, and
whether a reconnect attempt associates within the 30s timeout. -/
structure WifiEnv where
  connected : Bool
  now : Nat
  sdWifiFile : Option String
  reconnectOk : Bool

/-- The reconnect body of `checkAndReconnectWifi` (lines 243-291), after
the cool-down gate: resolve credentials (the SD result `sdCreds`/`sdActs`
with the stored fallback), bail out on an empty network name, otherwise
persist `ConnectingWifi` and attempt the reconnect, resetting or
incrementing the failure counter.  (The three-failure check at lines
274-278 only logs; both reconnect-failure exits return false.) -/
def wifiReconnectCore (ctx2 : Ctx) (sdCreds : Option (String × String))
    (sdActs : List Action) (reconnectOk : Bool) : Bool × Ctx × List Action :=
  let creds := sdCreds.getD (ctx2.prefs.wifiSsid, ctx2.prefs.wifiPassword)
  if creds.1 = "" then (false, ctx2, sdActs)
  else
    let s1 := setState ctx2 STATE_CONNECTING_WIFI ERROR_NONE
    let acts := sdActs ++ s1.2 ++
      [Action.wifiDisconnect false, Action.wifiConnectAttempt creds.1 creds.2]
    if reconnectOk then
      (true, { s1.1 with wifiReconnectAttempts := 0 }, acts ++ [Action.wifiPowerSave])
    else
      (false, { s1.1 with wifiReconnectAttempts := s1.1.wifiReconnectAttempts + 1 }, acts)

/-- `checkAndReconnectWifi` (lines 230-292): the fast path when connected;
a 60s cool-down gate (`sub32 now lastWifiCheckTime < WIFI_CHECK_INTERVAL`)
when disconnected; otherwise credential re-resolution (SD first, stored
fallback), a reconnect attempt, and retry-counter bookkeeping. -/
def checkAndReconnectWifi (ctx : Ctx) (env : WifiEnv) : Bool × Ctx × List Action :=
  if env.connected then
    (true, { ctx with wifiReconnectAttempts := 0 }, [])
  else if sub32 env.now ctx.lastWifiCheckTime < WIFI_CHECK_INTERVAL then
    (false, ctx, [])
  else
    let ctx1 := { ctx with lastWifiCheckTime := env.now }
    let sd := readWiFiCredentialsFromSD ctx1 env.sdWifiFile
    wifiReconnectCore sd.2.1 sd.1 sd.2.2 env.reconnectOk

/-! ### The display session controller -/

/-- The seven-field `time` object of the server response, after ArduinoJson
`as<uint8_t>` conversion. -/
structure TimeObj where
  year : Nat
  month : Nat
  day : Nat
  weekday : Nat
  hour : Nat
  minute : Nat
  second : Nat

/-- The range validation of `syncRTCFromServerData` (lines 386-391). -/
def rtcTimeValid (t : TimeObj) : Bool :=
  23 ≤ t.year && t.year ≤ 99 && 1 ≤ t.month && t.month ≤ 12 &&
  1 ≤ t.day && t.day ≤ 31 && 1 ≤ t.weekday && t.weekday ≤ 7 &&
  t.hour ≤ 23 && t.minute ≤ 59 && t.second ≤ 59

/-- RTC-set actions of the time-sync step: the clock is set only when a
complete `time` object is present and passes validation. -/
def rtcActions (t : Option TimeObj) : List Action :=
  match t with
  | some tv => if rtcTimeValid tv then [Action.rtcSet] else []
  | none => []

/-- The parsed `DisplayDirective` of a well-formed JSON response.  `time` is
`none` when the `time` key is absent or lacks one of the seven fields. -/
structure Directive where
  imageUrl : String
  nextWakeSecs : Int
  time : Option TimeObj

/-- External reads made by `fetchAndDisplayImage`. -/
structure FetchEnv where
  wifi : WifiEnv
  deviceUuid : String
  httpBeginOk : Bool
  postCode : Int
  respParse : Option Directive
  downloadOk : Bool
  renderOk : Bool

/-- The telemetry endpoint URL built from the device id (line 547). -/
def apiUrl (env : FetchEnv) : String :=
  "https://fridge-thing-production.up.railway.app/api/devices/" ++ env.deviceUuid ++ "/display"

/-- The retry-sleep error path repeated verbatim at lines 557-572, 605-620,
633-648, 698-713, 723-738, 750-765: persist `Error`+code, arm a 60s timer
and the wake button, persist `Sleeping`, disconnect (without erasing
config), power the radio off, sleep the SD card, and enter deep sleep. -/
def errorRetrySleep (ctx : Ctx) (code : Nat) : Ctx × List Action :=
  let s1 := setState ctx STATE_ERROR code
  let s2 := setState s1.1 STATE_SLEEPING ERROR_NONE
  (s2.1,
   s1.2 ++ [Action.enableTimerWakeupUs (60 * 1000000), Action.enableExt0Wakeup] ++ s2.2 ++
   [Action.wifiDisconnect false, Action.wifiModeOff, Action.wifiRadioStop,
    Action.sdSleep, Action.deepSleepStart])

/-- The success scheduling block of `fetchAndDisplayImage` (lines 770-809):
clamp `next_wake_secs`, persist `sleep.nextWake`, arm the timer (in µs) and
the wake button, persist `Sleeping`, disconnect erasing the in-RAM config,
power the radio off, sleep the SD card, and enter deep sleep. -/
def scheduleSleep (ctx : Ctx) (pre : List Action) (nextWakeSec : Int) : Ctx × List Action :=
  let n := clampWake nextWakeSec
  let ctx1 := { ctx with prefs := { ctx.prefs with sleepNextWake := n } }
  let s := setState ctx1 STATE_SLEEPING ERROR_NONE
  (s.1,
   pre ++ [Action.persistNextWake n, Action.enableTimerWakeupUs (n * 1000000),
           Action.enableExt0Wakeup] ++ s.2 ++
   [Action.wifiDisconnect true, Action.wifiModeOff, Action.wifiRadioStop,
    Action.sdSleep, Action.deepSleepStart])

/-- `fetchAndDisplayImage` (lines 526-810): require connectivity (restart on
failure), POST telemetry, parse the directive, optionally sync the RTC,
then either skip on `NO_REFRESH`, download+render a valid http(s) URL
(upgrading `http://` to `https://`), or treat the URL as a server error;
every post-connectivity failure takes `errorRetrySleep`, success takes
`scheduleSleep`. -/
def fetchAndDisplayImage (ctx0 : Ctx) (env : FetchEnv) : Ctx × List Action :=
  let s1 := setState ctx0 STATE_FETCHING_IMAGE ERROR_NONE
  let w := checkAndReconnectWifi s1.1 env.wifi
  if w.1 = false then
    let s2 := setState w.2.1 STATE_ERROR ERROR_WIFI_CONNECT
    (s2.1, s1.2 ++ w.2.2 ++ s2.2 ++ [Action.espRestart])
  else
    let pre0 := s1.2 ++ w.2.2
    if env.httpBeginOk = false then
      let e := errorRetrySleep w.2.1 ERROR_SERVER_CONNECT
      (e.1, pre0 ++ e.2)
    else
      let pre1 := pre0 ++ [Action.httpPost (apiUrl env)]
      if env.postCode ≠ 200 then
        let e := errorRetrySleep w.2.1 ERROR_SERVER_CONNECT
        (e.1, pre1 ++ e.2)
      else
        match env.respParse with
        | none =>
          let e := errorRetrySleep w.2.1 ERROR_SERVER_CONNECT
          (e.1, pre1 ++ e.2)
        | some d =>
          let pre2 := pre1 ++ rtcActions d.time
          if d.imageUrl = "NO_REFRESH" then
            scheduleSleep w.2.1 pre2 d.nextWakeSecs
          else if d.imageUrl ≠ "" ∧
              (startsWithStr d.imageUrl "http://" = true ∨
               startsWithStr d.imageUrl "https://" = true) then
            let url :=
              if startsWithStr d.imageUrl "http://" = true then
                replaceS d.imageUrl "http://" "https://"
              else d.imageUrl
            let pre3 := pre2 ++ [Action.download url]
            if env.downloadOk = false then
              let e := errorRetrySleep w.2.1 ERROR_IMAGE_DOWNLOAD
              (e.1, pre3 ++ e.2)
            else
              let s3 := setState w.2.1 STATE_DISPLAYING_IMAGE ERROR_NONE
              let pre4 := pre3 ++ s3.2 ++ [Action.render "/temp.bmp"]
              if env.renderOk = false then
                let e := errorRetrySleep s3.1 ERROR_IMAGE_DOWNLOAD
                (e.1, pre4 ++ e.2)
              else
                scheduleSleep s3.1 (pre4 ++ [Action.displayRefresh]) d.nextWakeSecs
          else
            let e := errorRetrySleep w.2.1 ERROR_SERVER_CONNECT
            (e.1, pre2 ++ e.2)

/-! ### The update checker -/

/-- Result of one `httpUpdate.update` call. -/
inductive UpdateRet where
  | failed
  | noUpdates
  | ok
deriving DecidableEq

/-- External reads made by `checkOTAUpdate`. -/
structure OtaEnv where
  wifi : WifiEnv
  beginOk : Bool
  getCode : Int
  versionBody : String
  httpAttempt : UpdateRet
  httpsAttempt : UpdateRet

/-- The final `t_httpUpdate_return` after the HTTP attempt and, only if it
failed outright, the HTTPS fallback (lines 889-904). -/
def otaFinalRet (env : OtaEnv) : UpdateRet :=
  if env.httpAttempt = UpdateRet.failed then env.httpsAttempt else env.httpAttempt

/-- `checkOTAUpdate` (lines 815-954): fetch the plain-text manifest; on a
200 response compare the trimmed body to `currentFirmwareVersion` by string
equality; on any mismatch restart the radio, persist `UpdatingFw`, attempt
the update over plain HTTP first and over HTTPS only if that failed; a
failed update persists `Error`/`UpdateFailed` and returns, a successful one
restarts the device. -/
def checkOTAUpdate (ctx0 : Ctx) (env : OtaEnv) : Ctx × List Action :=
  let s1 := setState ctx0 STATE_CHECKING_UPDATE ERROR_NONE
  let w := checkAndReconnectWifi s1.1 env.wifi
  if w.1 = false then (w.2.1, s1.2 ++ w.2.2)
  else
    let pre0 := s1.2 ++ w.2.2
    if env.beginOk = false then (w.2.1, pre0)
    else
      let pre1 := pre0 ++ [Action.httpGetVersion versionCheckURL]
      if env.getCode ≠ 200 then (w.2.1, pre1)
      else
        let newVersion := strTrimS env.versionBody
        if newVersion ≠ currentFirmwareVersion then
          let s2 := setState w.2.1 STATE_UPDATING_FW ERROR_NONE
          let httpUrl := replaceS firmwareURL "https://" "http://"
          let pre2 := pre1 ++ [Action.wifiDisconnect true, Action.wifiBeginStored] ++ s2.2 ++
            [Action.otaAttempt httpUrl false]
          let pre3 :=
            if env.httpAttempt = UpdateRet.failed then
              pre2 ++ [Action.otaAttempt firmwareURL true]
            else pre2
          match otaFinalRet env with
          | UpdateRet.failed =>
            let s3 := setState s2.1 STATE_ERROR ERROR_OTA_UPDATE
            (s3.1, pre3 ++ s3.2)
          | UpdateRet.noUpdates => (s2.1, pre3)
          | UpdateRet.ok => (s2.1, pre3 ++ [Action.espRestart])
        else (w.2.1, pre1)

/-! ### The lifecycle controller -/

/-- External reads made by `setup`. -/
structure SetupEnv where
  batteryVoltage : ℚ
  sdInitOk : Bool
  sdWifiFile : Option String
  initialConnectOk : Bool
  ota : OtaEnv
  fetch : FetchEnv

/-- The globals at the start of a boot, with the durable store `p` carried
over from the previous cycle and the SD-card init result applied. -/
def setupCtx (p : Prefs) (env : SetupEnv) : Ctx :=
  { currentState := STATE_INITIALIZING
    errorCode := ERROR_NONE
    wifiReconnectAttempts := 0
    sdCardAvailable := env.sdInitOk
    lastWifiCheckTime := 0
    prefs := p }

/-- `setup` (lines 960-1145): battery gate (critical → one-hour error
sleep with the radio powered down), credential resolution (SD first, stored
fallback; neither → provisioning screen and a 5-minute sleep), initial
connection attempt (failure → error screen and a 1-minute sleep), and on
success the OTA check followed by the display session. -/
def setup (p : Prefs) (env : SetupEnv) : Ctx × List Action :=
  let ctx := setupCtx p env
  if voltageToPercent env.batteryVoltage < BATTERY_CRITICAL_PCT then
    let s1 := setState ctx STATE_ERROR ERROR_LOW_BATTERY
    let s2 := setState s1.1 STATE_SLEEPING ERROR_NONE
    (s2.1,
     s1.2 ++ [Action.wifiDisconnect false, Action.wifiModeOff, Action.wifiRadioStop,
              Action.enableTimerWakeupUs (3600 * 1000000), Action.enableExt0Wakeup] ++ s2.2 ++
     [Action.sdSleep, Action.deepSleepStart])
  else
    let sd := readWiFiCredentialsFromSD ctx env.sdWifiFile
    let ctx1 := sd.2.1
    let creds := sd.1.getD (ctx1.prefs.wifiSsid, ctx1.prefs.wifiPassword)
    let hasCreds := sd.1.isSome || !(ctx1.prefs.wifiSsid = "")
    if hasCreds = false then
      let s1 := setState ctx1 STATE_ERROR ERROR_WIFI_CONNECT
      (s1.1,
       sd.2.2 ++ s1.2 ++
       [Action.displayRefresh, Action.enableTimerWakeupUs (300 * 1000000),
        Action.enableExt0Wakeup, Action.sdSleep, Action.deepSleepStart])
    else
      let s2 := setState ctx1 STATE_CONNECTING_WIFI ERROR_NONE
      let pre := sd.2.2 ++ s2.2 ++ [Action.wifiConnectAttempt creds.1 creds.2]
      if env.initialConnectOk then
        let o := checkOTAUpdate s2.1 env.ota
        let f := fetchAndDisplayImage o.1 env.fetch
        (f.1, pre ++ [Action.wifiPowerSave] ++ o.2 ++ f.2)
      else
        let s3 := setState s2.1 STATE_ERROR ERROR_WIFI_CONNECT
        let s4 := setState s3.1 STATE_SLEEPING ERROR_NONE
        (s4.1,
         pre ++ s3.2 ++
         [Action.displayRefresh, Action.enableTimerWakeupUs (60 * 1000000),
          Action.enableExt0Wakeup] ++ s4.2 ++
         [Action.sdSleep, Action.deepSleepStart])

/-! ### Trace predicates -/

/-- Actions that use the network or the radio for traffic (as opposed to
powering it down). -/
def isNetworkOp : Action → Bool
  | Action.wifiConnectAttempt _ _ => true
  | Action.wifiBeginStored => true
  | Action.wifiPowerSave => true
  | Action.httpPost _ => true
  | Action.httpGetVersion _ => true
  | Action.otaAttempt _ _ => true
  | Action.download _ => true
  | _ => false

def isOtaAttemptB : Action → Bool
  | Action.otaAttempt _ _ => true
  | _ => false

def isDeepSleep : Action → Bool
  | Action.deepSleepStart => true
  | _ => false

/-- Shutdown flags (disconnect seen, mode-off seen, radio-stop seen)
accumulated over a trace. -/
def shutdownSeen : Action → Bool × Bool × Bool → Bool × Bool × Bool
  | Action.wifiDisconnect _, st => (true, st.2.1, st.2.2)
  | Action.wifiModeOff, st => (st.1, true, st.2.2)
  | Action.wifiRadioStop, st => (st.1, st.2.1, true)
  | _, st => st

/-- Every `deepSleepStart` in the trace is preceded by a radio disconnect,
a `WIFI_OFF` mode switch, and an `esp_wifi_stop`. -/
def shutdownScan (st : Bool × Bool × Bool) : List Action → Bool
  | [] => true
  | a :: rest =>
      ((!isDeepSleep a) || (st.1 && st.2.1 && st.2.2)) &&
        shutdownScan (shutdownSeen a st) rest

def shutdownBeforeSleep (l : List Action) : Bool := shutdownScan (false, false, false) l

/-! ### Witness inputs -/

def ctxC1 : Ctx :=
  { currentState := STATE_FETCHING_IMAGE
    errorCode := ERROR_NONE
    wifiReconnectAttempts := 0
    sdCardAvailable := true
    lastWifiCheckTime := 0
    prefs := ⟨0, 0, 0, "", ""⟩ }

def prefsW : Prefs := ⟨0, 0, 0, "homenet", "hunter2"⟩

def ctx0W : Ctx :=
  { currentState := STATE_FETCHING_IMAGE
    errorCode := ERROR_NONE
    wifiReconnectAttempts := 0
    sdCardAvailable := true
    lastWifiCheckTime := 0
    prefs := prefsW }

def wifiConnW : WifiEnv := ⟨true, 100000, none, false⟩

def wifiDownW : WifiEnv := ⟨false, 1000, none, false⟩

def dirNoRefreshW : Directive := ⟨"NO_REFRESH", 300, none⟩

def dirImageW : Directive := ⟨"http://x/y.bmp", 45, none⟩

def fetchPostFailW : FetchEnv := ⟨wifiConnW, "AABBCCDD", true, 500, none, false, false⟩

def fetchNoRefreshW : FetchEnv := ⟨wifiConnW, "AABBCCDD", true, 200, some dirNoRefreshW, false, false⟩

def fetchImageW : FetchEnv := ⟨wifiConnW, "AABBCCDD", true, 200, some dirImageW, true, true⟩

def fetchDropW : FetchEnv := ⟨wifiDownW, "AABBCCDD", true, 200, some dirNoRefreshW, true, true⟩

def otaFailW : OtaEnv := ⟨wifiConnW, true, 200, "1.9", UpdateRet.failed, UpdateRet.failed⟩

def setupBattW : SetupEnv := ⟨3, true, none, false, otaFailW, fetchPostFailW⟩

def setupOkW : SetupEnv := ⟨4, false, none, true, otaFailW, fetchPostFailW⟩

def setupNoConnW : SetupEnv := ⟨4, false, none, false, otaFailW, fetchPostFailW⟩

def wifiFileW : String := "NETWORK=MyNet\nPASSWORD=hunter2\n"

def setupSdW : SetupEnv := ⟨4, true, some wifiFileW, true, otaFailW, fetchPostFailW⟩

/-- Claim C1, counterexample: calling `setState(STATE_ERROR,
ERROR_SERVER_CONNECT)` from `STATE_FETCHING_IMAGE` durably writes
`state.lastState = STATE_FETCHING_IMAGE` — the state being *exited* — not
the new state being entered, so the claim that the breadcrumb holds the
state about to be acted on is false. -/
theorem c1_counterexample :
    (setState ctxC1 STATE_ERROR ERROR_SERVER_CONNECT).2
      = [Action.persistState STATE_FETCHING_IMAGE ERROR_SERVER_CONNECT]
    ∧ (setState ctxC1 STATE_ERROR ERROR_SERVER_CONNECT).1.prefs.stateLastState
      = STATE_FETCHING_IMAGE
    ∧ STATE_FETCHING_IMAGE ≠ STATE_ERROR := by
  refine ⟨rfl, rfl, by decide⟩

/-- Claim C1, amended: every `setState(newState, newErrorCode)` call
durably writes, as its very first action and before anything else it does,
the pair (previous state — the state being exited — under
`state.lastState`, together with `newErrorCode` under `state.errorCode`);
the state being entered is recorded only in RAM. -/
theorem c1_amended (ctx : Ctx) (newState newErrorCode : Nat) :
    (setState ctx newState newErrorCode).2
      = [Action.persistState ctx.currentState newErrorCode]
    ∧ (setState ctx newState newErrorCode).1.prefs.stateLastState = ctx.currentState
    ∧ (setState ctx newState newErrorCode).1.prefs.stateErrorCode = newErrorCode
    ∧ (setState ctx newState newErrorCode).1.currentState = newState
    ∧ (setState ctx newState newErrorCode).1.errorCode = newErrorCode := by
  exact ⟨rfl, rfl, rfl, rfl, rfl⟩

/-! ### Claim C9 -/

/-- Claim C9: for every battery voltage `v`, the computed percentage is
`clamp((v - 3.2)/(4.2 - 3.2) * 100, 0, 100)`, with the four boundary
values the spec lists. -/
theorem c9_voltage_to_percent :
    (∀ v : ℚ, voltageToPercent v = max 0 (min 100 ((v - 3.2) / (4.2 - 3.2) * 100)))
    ∧ voltageToPercent 3.2 = 0
    ∧ voltageToPercent 4.2 = 100
    ∧ voltageToPercent 2.0 = 0
    ∧ voltageToPercent 5.0 = 100 := by
  refine ⟨?_, by norm_num [voltageToPercent], by norm_num [voltageToPercent],
    by norm_num [voltageToPercent], by norm_num [voltageToPercent]⟩
  intro v
  unfold voltageToPercent
  have h32 : (4.2 - 3.2 : ℚ) = 1 := by norm_num
  rw [h32]
  simp only [div_one, mul_one]
  rcases lt_or_le (100 : ℚ) ((v - 3.2) * 100) with h1 | h1
  · rw [if_pos h1, if_neg (by norm_num)]
    rw [min_eq_left h1.le, max_eq_right (by norm_num)]
  · rw [if_neg (not_lt.mpr h1)]
    rcases lt_or_le ((v - 3.2) * 100) 0 with h2 | h2
    · rw [if_pos h2, min_eq_right h1, max_eq_left h2.le]
    · rw [if_neg (not_lt.mpr h2), min_eq_right h1, max_eq_right h2]

/-! ### Helper lemmas -/

theorem rtcActions_mem (t : Option TimeObj) (a : Action) (ha : a ∈ rtcActions t) :
    a = Action.rtcSet := by
  rcases t with _ | tv
  · simp [rtcActions] at ha
  · by_cases hv : rtcTimeValid tv = true <;> simp [rtcActions, hv] at ha
    exact ha

theorem isPrefixOfC_self_append (p r : List Char) : isPrefixOfC p (p ++ r) = true := by
  induction p with
  | nil => rfl
  | cons a t ih => simp [isPrefixOfC, ih]

theorem isPrefixOfC_iff (p : List Char) : ∀ l, isPrefixOfC p l = true ↔ p <+: l := by
  induction p with
  | nil => intro l; simp [isPrefixOfC]
  | cons a t ih =>
    intro l
    cases l with
    | nil => simp [isPrefixOfC]
    | cons b m => simp [isPrefixOfC, List.cons_prefix_cons, ih]

theorem indexOfAux_self (pat r : List Char) (i : Nat) (hne : pat ≠ []) :
    listIndexOfAux pat (pat ++ r) i = some i := by
  cases pat with
  | nil => exact absurd rfl hne
  | cons a t => simp [listIndexOfAux, isPrefixOfC, isPrefixOfC_self_append]

theorem not_isPrefixOfC_blocked (pat L rest : List Char)
    (hnl : '\n' ∉ pat) (hinf : ¬ pat <:+: L) :
    ¬ isPrefixOfC pat (L ++ '\n' :: rest) = true := by
  intro h
  have hpre : pat <+: L ++ '\n' :: rest := (isPrefixOfC_iff pat _).1 h
  by_cases hlen : pat.length ≤ L.length
  · have htake : pat = (L ++ '\n' :: rest).take pat.length := List.prefix_iff_eq_take.1 hpre
    rw [List.take_append_of_le_length hlen] at htake
    exact hinf (htake ▸ (List.take_prefix _ _).isInfix)
  · push_neg at hlen
    rcases hpre with ⟨t, ht⟩
    have h1 : pat[L.length]? = some '\n' := by
      have e1 : (pat ++ t)[L.length]? = pat[L.length]? := by
        rw [List.getElem?_append]
        exact if_pos hlen
      have e2 : (L ++ '\n' :: rest)[L.length]? = some '\n' := by
        rw [List.getElem?_append_right (le_refl _)]
        simp
      rw [← e1, ht]
      exact e2
    exact hnl (List.getElem?_mem h1)

theorem indexOfAux_skip (pat rest : List Char) :
    ∀ (L : List Char) (i : Nat), pat ≠ [] → '\n' ∉ pat → ¬ pat <:+: L →
    listIndexOfAux pat (L ++ '\n' :: rest) i = listIndexOfAux pat rest (i + L.length + 1) := by
  intro L
  induction L with
  | nil =>
    intro i hne hnl hinf
    have hpre := not_isPrefixOfC_blocked pat [] rest hnl hinf
    cases pat with
    | nil => exact absurd rfl hne
    | cons a t =>
      simp only [List.nil_append] at hpre ⊢
      simp [listIndexOfAux, hpre]
  | cons a L2 ih =>
    intro i hne hnl hinf
    have hpre := not_isPrefixOfC_blocked pat (a :: L2) rest hnl hinf
    have hinf2 : ¬ pat <:+: L2 := fun h => hinf (List.infix_cons h)
    rw [List.cons_append] at hpre
    simp only [List.cons_append, listIndexOfAux, hpre, if_false, Bool.false_eq_true,
      List.append_eq]
    rw [ih (i + 1) hne hnl hinf2]
    congr 1
    simp only [List.length_cons]
    omega

theorem indexOfAux_char (c : Char) (rest : List Char) :
    ∀ (L : List Char) (i : Nat), c ∉ L →
    listIndexOfAux [c] (L ++ c :: rest) i = some (i + L.length) := by
  intro L
  induction L with
  | nil => intro i _; simp [listIndexOfAux, isPrefixOfC]
  | cons a L2 ih =>
    intro i hc
    simp only [List.mem_cons, not_or] at hc
    have hca : ¬ (c == a) = true := by
      simp only [beq_iff_eq]
      exact hc.1
    simp only [List.cons_append, listIndexOfAux, isPrefixOfC, hca, Bool.false_and, if_false,
      Bool.false_eq_true, List.append_eq]
    rw [ih (i + 1) hc.2]
    congr 1
    simp only [List.length_cons]
    omega

theorem sdread_mem (ctx : Ctx) (f : Option String) (a : Action)
    (ha : a ∈ (readWiFiCredentialsFromSD ctx f).2.2) :
    ∃ s p, a = Action.persistWifiCreds s p := by
  by_cases hsd : ctx.sdCardAvailable = false
  · simp [readWiFiCredentialsFromSD, hsd] at ha
  · rcases f with _ | content
    · simp [readWiFiCredentialsFromSD, hsd] at ha
    · rcases hnet : listIndexOf content.data netKey with _ | npos
      · simp [readWiFiCredentialsFromSD, hsd, hnet] at ha
      · rcases hpass : listIndexOf content.data passKey with _ | ppos
        · simp [readWiFiCredentialsFromSD, hsd, hnet, hpass] at ha
        · simp [readWiFiCredentialsFromSD, hsd, hnet, hpass] at ha
          exact ⟨_, _, ha⟩

theorem sdread_none_ctx (ctx : Ctx) (f : Option String)
    (h : (readWiFiCredentialsFromSD ctx f).1 = none) :
    (readWiFiCredentialsFromSD ctx f).2.1 = ctx := by
  by_cases hsd : ctx.sdCardAvailable = false
  · simp [readWiFiCredentialsFromSD, hsd]
  · rcases f with _ | content
    · simp [readWiFiCredentialsFromSD, hsd]
    · rcases hnet : listIndexOf content.data netKey with _ | npos
      · simp [readWiFiCredentialsFromSD, hsd, hnet]
      · rcases hpass : listIndexOf content.data passKey with _ | ppos
        · simp [readWiFiCredentialsFromSD, hsd, hnet, hpass]
        · simp [readWiFiCredentialsFromSD, hsd, hnet, hpass] at h

theorem no_sleep_sdread (ctx : Ctx) (f : Option String) :
    Action.deepSleepStart ∉ (readWiFiCredentialsFromSD ctx f).2.2 := by
  intro ha
  rcases sdread_mem ctx f _ ha with ⟨s, p, hsp⟩
  simp at hsp

theorem no_sleep_core (ctx2 : Ctx) (sdCreds : Option (String × String))
    (sdActs : List Action) (rOk : Bool)
    (hsd : Action.deepSleepStart ∉ sdActs) :
    Action.deepSleepStart ∉ (wifiReconnectCore ctx2 sdCreds sdActs rOk).2.2 := by
  intro ha
  by_cases hempty : (sdCreds.getD (ctx2.prefs.wifiSsid, ctx2.prefs.wifiPassword)).1 = ""
  · simp [wifiReconnectCore, hempty] at ha
    exact hsd ha
  · rcases rOk <;> simp [wifiReconnectCore, hempty, setState] at ha <;> exact hsd ha

theorem no_sleep_wifi (ctx : Ctx) (env : WifiEnv) :
    Action.deepSleepStart ∉ (checkAndReconnectWifi ctx env).2.2 := by
  intro ha
  by_cases hc : env.connected = true
  · simp [checkAndReconnectWifi, hc] at ha
  · have hc' : env.connected = false := by
      revert hc; cases env.connected <;> simp
    by_cases hcool : sub32 env.now ctx.lastWifiCheckTime < WIFI_CHECK_INTERVAL
    · simp [checkAndReconnectWifi, hc', hcool] at ha
    · simp only [checkAndReconnectWifi, hc', hcool, Bool.false_eq_true, if_false] at ha
      exact no_sleep_core _ _ _ _ (no_sleep_sdread _ _) ha

theorem no_sleep_rtc (t : Option TimeObj) :
    Action.deepSleepStart ∉ rtcActions t := by
  intro h
  have := rtcActions_mem t _ h
  simp at this

theorem shutdownScan_append (st : Bool × Bool × Bool) (l1 l2 : List Action) :
    shutdownScan st (l1 ++ l2) =
      (shutdownScan st l1 &&
       shutdownScan (l1.foldl (fun s a => shutdownSeen a s) st) l2) := by
  induction l1 generalizing st with
  | nil => simp [shutdownScan]
  | cons a t ih => simp [shutdownScan, ih, Bool.and_assoc]

theorem scan_true_of_no_sleep (l : List Action) (st : Bool × Bool × Bool)
    (h : Action.deepSleepStart ∉ l) : shutdownScan st l = true := by
  induction l generalizing st with
  | nil => rfl
  | cons a t ih =>
    simp only [List.mem_cons, not_or] at h
    have ha : isDeepSleep a = false := by
      rcases a <;> first | rfl | exact absurd rfl h.1
    simp [shutdownScan, ha, ih _ h.2]

theorem scan_append_no_sleep (l1 l2 : List Action)
    (h1 : Action.deepSleepStart ∉ l1)
    (h2 : ∀ st, shutdownScan st l2 = true) :
    ∀ st, shutdownScan st (l1 ++ l2) = true := by
  intro st
  rw [shutdownScan_append, scan_true_of_no_sleep l1 st h1, Bool.true_and]
  exact h2 _

theorem scan_cons_no_sleep (a : Action) (l : List Action)
    (ha : isDeepSleep a = false)
    (h : ∀ st, shutdownScan st l = true) :
    ∀ st, shutdownScan st (a :: l) = true := by
  intro st
  simp [shutdownScan, ha, h]

theorem scan_errorRetrySleep (ctx : Ctx) (code : Nat) :
    ∀ st, shutdownScan st (errorRetrySleep ctx code).2 = true := by
  intro st
  simp [errorRetrySleep, setState, shutdownScan, shutdownSeen, isDeepSleep]

theorem scan_scheduleSleep (ctx : Ctx) (pre : List Action) (n : Int)
    (hpre : Action.deepSleepStart ∉ pre) :
    ∀ st, shutdownScan st (scheduleSleep ctx pre n).2 = true := by
  have htail : ∀ st, shutdownScan st
      ([Action.persistNextWake (clampWake n),
        Action.enableTimerWakeupUs (clampWake n * 1000000), Action.enableExt0Wakeup] ++
       [Action.persistState ctx.currentState ERROR_NONE] ++
       [Action.wifiDisconnect true, Action.wifiModeOff, Action.wifiRadioStop,
        Action.sdSleep, Action.deepSleepStart]) = true := by
    intro st
    simp [shutdownScan, shutdownSeen, isDeepSleep]
  intro st
  simpa [scheduleSleep, setState, List.append_assoc] using
    scan_append_no_sleep pre _ hpre
      (by simpa [List.append_assoc] using htail) st

theorem httpPost_mem_fetch (ctx : Ctx) (env : FetchEnv)
    (hconn : env.wifi.connected = true) (hb : env.httpBeginOk = true) :
    Action.httpPost (apiUrl env) ∈ (fetchAndDisplayImage ctx env).2 := by
  by_cases hp : env.postCode = 200
  · rcases hre : env.respParse with _ | d
    · simp [fetchAndDisplayImage, checkAndReconnectWifi, errorRetrySleep, setState,
        hconn, hb, hp, hre]
    · by_cases hnr : d.imageUrl = "NO_REFRESH"
      · simp [fetchAndDisplayImage, checkAndReconnectWifi, scheduleSleep, setState,
          hconn, hb, hp, hre, hnr]
      · by_cases hval : d.imageUrl ≠ ""
            ∧ (startsWithStr d.imageUrl "http://" = true
               ∨ startsWithStr d.imageUrl "https://" = true)
        · by_cases hdl : env.downloadOk = false
          · simp [fetchAndDisplayImage, checkAndReconnectWifi, errorRetrySleep, scheduleSleep,
              setState, hconn, hb, hp, hre, hnr, hval, hdl]
          · by_cases hrd : env.renderOk = false <;>
              simp [fetchAndDisplayImage, checkAndReconnectWifi, errorRetrySleep, scheduleSleep,
                setState, hconn, hb, hp, hre, hnr, hval, hdl, hrd]
        · simp [fetchAndDisplayImage, checkAndReconnectWifi, errorRetrySleep, setState,
            hconn, hb, hp, hre, hnr, hval]
  · simp [fetchAndDisplayImage, checkAndReconnectWifi, errorRetrySleep, setState,
      hconn, hb, hp]

/-! ### Claim C2 -/

/-- Claim C2: with the session's connectivity intact, a failed telemetry
POST (transport-level `http.begin` failure, non-200 status, or a body that
fails JSON parsing) records the `ServerConnect` error code, arms a fixed
60-second timer together with the wake button, and enters deep sleep; the
device never restarts on this path. -/
theorem c2_server_connect_retry (ctx : Ctx) (env : FetchEnv)
    (hconn : env.wifi.connected = true)
    (hfail : env.httpBeginOk = false ∨ env.postCode ≠ 200 ∨ env.respParse = none) :
    Action.persistState STATE_FETCHING_IMAGE ERROR_SERVER_CONNECT
      ∈ (fetchAndDisplayImage ctx env).2
    ∧ Action.enableTimerWakeupUs (60 * 1000000) ∈ (fetchAndDisplayImage ctx env).2
    ∧ Action.enableExt0Wakeup ∈ (fetchAndDisplayImage ctx env).2
    ∧ Action.deepSleepStart ∈ (fetchAndDisplayImage ctx env).2
    ∧ Action.espRestart ∉ (fetchAndDisplayImage ctx env).2 := by
  by_cases hb : env.httpBeginOk = false
  · simp [fetchAndDisplayImage, checkAndReconnectWifi, errorRetrySleep, setState, hconn, hb]
  · have hb' : env.httpBeginOk = true := by
      revert hb; cases env.httpBeginOk <;> simp
    by_cases hp : env.postCode = 200
    · have hr : env.respParse = none := by
        rcases hfail with h | h | h
        · exact absurd hb' (by simp [h])
        · exact absurd hp h
        · exact h
      simp [fetchAndDisplayImage, checkAndReconnectWifi, errorRetrySleep, setState,
        hconn, hb', hp, hr]
    · simp [fetchAndDisplayImage, checkAndReconnectWifi, errorRetrySleep, setState,
        hconn, hb', hp]

/-- Witness for C2 at a concrete environment whose POST returns 500. -/
theorem c2_server_connect_retry_witness :
    fetchPostFailW.wifi.connected = true
    ∧ (fetchPostFailW.httpBeginOk = false ∨ fetchPostFailW.postCode ≠ 200
       ∨ fetchPostFailW.respParse = none)
    ∧ (Action.persistState STATE_FETCHING_IMAGE ERROR_SERVER_CONNECT
         ∈ (fetchAndDisplayImage ctx0W fetchPostFailW).2
       ∧ Action.enableTimerWakeupUs (60 * 1000000) ∈ (fetchAndDisplayImage ctx0W fetchPostFailW).2
       ∧ Action.enableExt0Wakeup ∈ (fetchAndDisplayImage ctx0W fetchPostFailW).2
       ∧ Action.deepSleepStart ∈ (fetchAndDisplayImage ctx0W fetchPostFailW).2
       ∧ Action.espRestart ∉ (fetchAndDisplayImage ctx0W fetchPostFailW).2) :=
  ⟨rfl, Or.inr (Or.inl (by decide)),
   c2_server_connect_retry ctx0W fetchPostFailW rfl (Or.inr (Or.inl (by decide)))⟩

/-! ### Claim C3 -/

/-- Claim C3: when the sampled battery percentage is below the 5% critical
threshold, the boot performs no network operation at all, records the
`BatteryCritical` (`ERROR_LOW_BATTERY`) code, arms a 3600-second timer
together with the wake button, and enters deep sleep. -/
theorem c3_battery_critical_gate (p : Prefs) (env : SetupEnv)
    (hcrit : voltageToPercent env.batteryVoltage < BATTERY_CRITICAL_PCT) :
    (∀ a ∈ (setup p env).2, isNetworkOp a = false)
    ∧ Action.persistState STATE_INITIALIZING ERROR_LOW_BATTERY ∈ (setup p env).2
    ∧ Action.enableTimerWakeupUs (3600 * 1000000) ∈ (setup p env).2
    ∧ Action.enableExt0Wakeup ∈ (setup p env).2
    ∧ Action.deepSleepStart ∈ (setup p env).2 := by
  have htrace : (setup p env).2 =
      [Action.persistState STATE_INITIALIZING ERROR_LOW_BATTERY,
       Action.wifiDisconnect false, Action.wifiModeOff, Action.wifiRadioStop,
       Action.enableTimerWakeupUs (3600 * 1000000), Action.enableExt0Wakeup,
       Action.persistState STATE_ERROR ERROR_NONE,
       Action.sdSleep, Action.deepSleepStart] := by
    simp [setup, setupCtx, setState, hcrit]
  rw [htrace]
  refine ⟨?_, by simp, by simp, by simp, by simp⟩
  intro a ha
  simp only [List.mem_cons, List.not_mem_nil, or_false] at ha
  rcases ha with rfl | rfl | rfl | rfl | rfl | rfl | rfl | rfl | rfl <;> rfl

/-- Witness for C3 at a 3-volt battery (0%, below critical). -/
theorem c3_battery_critical_gate_witness :
    voltageToPercent setupBattW.batteryVoltage < BATTERY_CRITICAL_PCT
    ∧ ((∀ a ∈ (setup prefsW setupBattW).2, isNetworkOp a = false)
       ∧ Action.persistState STATE_INITIALIZING ERROR_LOW_BATTERY ∈ (setup prefsW setupBattW).2
       ∧ Action.enableTimerWakeupUs (3600 * 1000000) ∈ (setup prefsW setupBattW).2
       ∧ Action.enableExt0Wakeup ∈ (setup prefsW setupBattW).2
       ∧ Action.deepSleepStart ∈ (setup prefsW setupBattW).2) :=
  ⟨by norm_num [setupBattW, voltageToPercent, BATTERY_CRITICAL_PCT],
   c3_battery_critical_gate prefsW setupBattW
     (by norm_num [setupBattW, voltageToPercent, BATTERY_CRITICAL_PCT])⟩

/-! ### Claim C5 -/

/-- Claim C5: on every successful session (`NO_REFRESH` or a rendered
image), the wake interval persisted under `sleep.nextWake` and armed on the
timer equals `clamp(next_wake_secs, 60, 86400)`; in particular 10 clamps to
60, 90000 to 86400, and 300 stays 300. -/
theorem c5_wake_clamp (ctx : Ctx) (env : FetchEnv) (d : Directive)
    (hconn : env.wifi.connected = true) (hb : env.httpBeginOk = true)
    (hp : env.postCode = 200) (hr : env.respParse = some d)
    (hs : d.imageUrl = "NO_REFRESH" ∨
          (¬ d.imageUrl = ""
           ∧ (startsWithStr d.imageUrl "http://" = true ∨ startsWithStr d.imageUrl "https://" = true)
           ∧ env.downloadOk = true ∧ env.renderOk = true)) :
    (fetchAndDisplayImage ctx env).1.prefs.sleepNextWake = clampWake d.nextWakeSecs
    ∧ Action.persistNextWake (clampWake d.nextWakeSecs) ∈ (fetchAndDisplayImage ctx env).2
    ∧ Action.enableTimerWakeupUs (clampWake d.nextWakeSecs * 1000000)
        ∈ (fetchAndDisplayImage ctx env).2
    ∧ clampWake 10 = 60 ∧ clampWake 90000 = 86400 ∧ clampWake 300 = 300 := by
  rcases hs with hnr | ⟨hne, hstart, hdl, hrend⟩
  · simp [fetchAndDisplayImage, checkAndReconnectWifi, scheduleSleep, setState,
      hconn, hb, hp, hr, hnr, clampWake]
  · have hnref : ¬ d.imageUrl = "NO_REFRESH" := by
      intro he
      rcases hstart with h | h <;> rw [he] at h <;> exact absurd h (by decide)
    rcases hstart with h | h
    · simp [fetchAndDisplayImage, checkAndReconnectWifi, scheduleSleep, setState,
        hconn, hb, hp, hr, hnref, hne, h, hdl, hrend, clampWake]
    · by_cases h2 : startsWithStr d.imageUrl "http://" = true
      · simp [fetchAndDisplayImage, checkAndReconnectWifi, scheduleSleep, setState,
          hconn, hb, hp, hr, hnref, hne, h, h2, hdl, hrend, clampWake]
      · simp [fetchAndDisplayImage, checkAndReconnectWifi, scheduleSleep, setState,
          hconn, hb, hp, hr, hnref, hne, h, h2, hdl, hrend, clampWake]

/-- Witness for C5: the spec's scenario B, `next_wake_secs = 45` with an
`http://` image URL, clamps to 60. -/
theorem c5_wake_clamp_witness :
    fetchImageW.wifi.connected = true ∧ fetchImageW.postCode = 200
    ∧ ((fetchAndDisplayImage ctx0W fetchImageW).1.prefs.sleepNextWake = clampWake dirImageW.nextWakeSecs
       ∧ Action.persistNextWake (clampWake dirImageW.nextWakeSecs)
           ∈ (fetchAndDisplayImage ctx0W fetchImageW).2
       ∧ Action.enableTimerWakeupUs (clampWake dirImageW.nextWakeSecs * 1000000)
           ∈ (fetchAndDisplayImage ctx0W fetchImageW).2
       ∧ clampWake 10 = 60 ∧ clampWake 90000 = 86400 ∧ clampWake 300 = 300)
    ∧ clampWake dirImageW.nextWakeSecs = 60 :=
  ⟨rfl, rfl,
   c5_wake_clamp ctx0W fetchImageW dirImageW rfl rfl rfl rfl
     (Or.inr ⟨by decide, Or.inl (by decide), rfl, rfl⟩),
   by decide⟩

/-! ### Claim C7 -/

/-- Claim C7: credential resolution is prioritized and mirrored.  (a) For a
well-formed `/wifi.txt` (a `NETWORK=` line then a `PASSWORD=` line,
newline-terminated, values free of newlines and not containing the
`PASSWORD=` key), the reader returns the file's trimmed values and writes
those same values into the persistent `wifi.ssid`/`wifi.password` entries.
(b) In `setup`, whenever the SD read succeeds its values are the ones used
to connect; (c) only when it fails (file absent or malformed) are the
stored credentials used instead. -/
theorem c7_credential_resolution :
    (∀ (ctx : Ctx) (s p : String),
       ctx.sdCardAvailable = true → '\n' ∉ s.data → '\n' ∉ p.data →
       ¬ passKey <:+: (netKey ++ s.data) →
       (readWiFiCredentialsFromSD ctx
          (some ("NETWORK=" ++ s ++ "\n" ++ "PASSWORD=" ++ p ++ "\n"))).1
         = some (strTrimS s, strTrimS p)
       ∧ (readWiFiCredentialsFromSD ctx
            (some ("NETWORK=" ++ s ++ "\n" ++ "PASSWORD=" ++ p ++ "\n"))).2.1.prefs.wifiSsid
         = strTrimS s
       ∧ (readWiFiCredentialsFromSD ctx
            (some ("NETWORK=" ++ s ++ "\n" ++ "PASSWORD=" ++ p ++ "\n"))).2.1.prefs.wifiPassword
         = strTrimS p
       ∧ Action.persistWifiCreds (strTrimS s) (strTrimS p)
           ∈ (readWiFiCredentialsFromSD ctx
                (some ("NETWORK=" ++ s ++ "\n" ++ "PASSWORD=" ++ p ++ "\n"))).2.2)
    ∧ (∀ (pfs : Prefs) (env : SetupEnv) (s pw : String),
       ¬ voltageToPercent env.batteryVoltage < BATTERY_CRITICAL_PCT →
       (readWiFiCredentialsFromSD (setupCtx pfs env) env.sdWifiFile).1 = some (s, pw) →
       Action.wifiConnectAttempt s pw ∈ (setup pfs env).2)
    ∧ (∀ (pfs : Prefs) (env : SetupEnv),
       ¬ voltageToPercent env.batteryVoltage < BATTERY_CRITICAL_PCT →
       (readWiFiCredentialsFromSD (setupCtx pfs env) env.sdWifiFile).1 = none →
       ¬ pfs.wifiSsid = "" →
       Action.wifiConnectAttempt pfs.wifiSsid pfs.wifiPassword ∈ (setup pfs env).2) := by
  refine ⟨?_, ?_, ?_⟩
  · intro ctx s p hsd hs hp hinf
    have hdata : ("NETWORK=" ++ s ++ "\n" ++ "PASSWORD=" ++ p ++ "\n").data
        = netKey ++ (s.data ++ ('\n' :: (passKey ++ (p.data ++ ['\n'])))) := by
      simp [String.data_append, netKey, passKey]
    have hc1 : '\n' ∉ netKey ++ s.data := by
      intro h
      rcases List.mem_append.1 h with h | h
      · exact absurd h (by decide)
      · exact hs h
    have hc2 : '\n' ∉ passKey ++ p.data := by
      intro h
      rcases List.mem_append.1 h with h | h
      · exact absurd h (by decide)
      · exact hp h
    have hnet : listIndexOf ("NETWORK=" ++ s ++ "\n" ++ "PASSWORD=" ++ p ++ "\n").data netKey
        = some 0 := by
      unfold listIndexOf
      rw [hdata]
      exact indexOfAux_self _ _ _ (by decide)
    have e1 : ("NETWORK=" ++ s ++ "\n" ++ "PASSWORD=" ++ p ++ "\n").data
        = (netKey ++ s.data) ++ '\n' :: (passKey ++ (p.data ++ ['\n'])) := by
      rw [hdata]
      simp
    have hpass : listIndexOf ("NETWORK=" ++ s ++ "\n" ++ "PASSWORD=" ++ p ++ "\n").data passKey
        = some (9 + s.data.length) := by
      unfold listIndexOf
      rw [e1, indexOfAux_skip passKey _ (netKey ++ s.data) 0 (by decide) (by decide) hinf]
      rw [indexOfAux_self _ _ _ (by decide)]
      congr 1
      simp [netKey]
      omega
    have hend1 : listIndexOfCharFrom ("NETWORK=" ++ s ++ "\n" ++ "PASSWORD=" ++ p ++ "\n").data
        '\n' 0 = some (8 + s.data.length) := by
      unfold listIndexOfCharFrom
      rw [e1, List.drop_zero,
        indexOfAux_char '\n' (passKey ++ (p.data ++ ['\n'])) (netKey ++ s.data) 0 hc1]
      simp [netKey]
      omega
    have hend2 : listIndexOfCharFrom ("NETWORK=" ++ s ++ "\n" ++ "PASSWORD=" ++ p ++ "\n").data
        '\n' (9 + s.data.length) = some (9 + s.data.length + (9 + p.data.length)) := by
      unfold listIndexOfCharFrom
      have e2 : ("NETWORK=" ++ s ++ "\n" ++ "PASSWORD=" ++ p ++ "\n").data
          = (netKey ++ s.data ++ ['\n']) ++ ((passKey ++ p.data) ++ '\n' :: []) := by
        rw [hdata]
        simp
      rw [e2, List.drop_left' (by simp [netKey]; omega),
        indexOfAux_char '\n' [] (passKey ++ p.data) 0 hc2]
      simp [passKey]
      omega
    have hsub1 : listSub ("NETWORK=" ++ s ++ "\n" ++ "PASSWORD=" ++ p ++ "\n").data
        8 (8 + s.data.length) = s.data := by
      unfold listSub
      rw [hdata, List.drop_left' (by simp [netKey]),
        show (8 + s.data.length) - 8 = s.data.length from by omega]
      have e3 : s.data ++ ('\n' :: (passKey ++ (p.data ++ ['\n'])))
          = s.data ++ ('\n' :: (passKey ++ (p.data ++ ['\n']))) := rfl
      exact List.take_left _ _
    have hsub2 : listSub ("NETWORK=" ++ s ++ "\n" ++ "PASSWORD=" ++ p ++ "\n").data
        (9 + s.data.length + 9) (9 + s.data.length + (9 + p.data.length)) = p.data := by
      unfold listSub
      have e4 : ("NETWORK=" ++ s ++ "\n" ++ "PASSWORD=" ++ p ++ "\n").data
          = (netKey ++ s.data ++ ['\n'] ++ passKey) ++ (p.data ++ ['\n']) := by
        rw [hdata]
        simp
      rw [e4, List.drop_left' (by simp [netKey, passKey]; omega),
        show (9 + s.data.length + (9 + p.data.length)) - (9 + s.data.length + 9)
          = p.data.length from by omega]
      exact List.take_left _ _
    refine ⟨?_, ?_, ?_, ?_⟩ <;>
      simp only [readWiFiCredentialsFromSD, hsd, Bool.true_eq_false, reduceIte,
        hnet, hpass, hend1, hend2, Nat.zero_add, hsub1, hsub2, strTrimS] <;>
      simp
  · intro pfs env s pw hbatt hread
    by_cases hic : env.initialConnectOk = true <;>
      simp [setup, hbatt, hread, hic, setState]
  · intro pfs env hbatt hread hss
    have hctx := sdread_none_ctx _ _ hread
    have hps : (setupCtx pfs env).prefs = pfs := rfl
    by_cases hic : env.initialConnectOk = true <;>
      simp [setup, hbatt, hread, hctx, hps, hic, hss, setState]

/-- Witness for C7: a padded override file resolves to trimmed values and
mirrors them; a concrete `/wifi.txt` drives the connect attempt; with no
file the stored credentials are used. -/
theorem c7_credential_resolution_witness :
    ctx0W.sdCardAvailable = true
    ∧ (readWiFiCredentialsFromSD ctx0W
         (some ("NETWORK=" ++ "  MyNet " ++ "\n" ++ "PASSWORD=" ++ "hunter2 " ++ "\n"))).1
        = some (strTrimS "  MyNet ", strTrimS "hunter2 ")
    ∧ strTrimS "  MyNet " = "MyNet"
    ∧ Action.wifiConnectAttempt "MyNet" "hunter2" ∈ (setup prefsW setupSdW).2
    ∧ Action.wifiConnectAttempt prefsW.wifiSsid prefsW.wifiPassword
        ∈ (setup prefsW setupOkW).2 := by
  refine ⟨rfl, ?_, by decide, ?_, ?_⟩
  · exact (c7_credential_resolution.1 ctx0W "  MyNet " "hunter2 " rfl
      (by decide) (by decide) (by decide)).1
  · exact c7_credential_resolution.2.1 prefsW setupSdW "MyNet" "hunter2"
      (by norm_num [setupSdW, voltageToPercent, BATTERY_CRITICAL_PCT]) (by decide)
  · exact c7_credential_resolution.2.2 prefsW setupOkW
      (by norm_num [setupOkW, voltageToPercent, BATTERY_CRITICAL_PCT]) (by decide) (by decide)

/-! ### Claim C8 -/

/-- Claim C8: a directive whose `image_url` is the literal `NO_REFRESH`
skips download and render entirely and proceeds straight to sleep
scheduling. -/
theorem c8_no_refresh (ctx : Ctx) (env : FetchEnv) (d : Directive)
    (hconn : env.wifi.connected = true) (hb : env.httpBeginOk = true)
    (hp : env.postCode = 200) (hr : env.respParse = some d)
    (hnr : d.imageUrl = "NO_REFRESH") :
    (∀ u, Action.download u ∉ (fetchAndDisplayImage ctx env).2)
    ∧ (∀ pth, Action.render pth ∉ (fetchAndDisplayImage ctx env).2)
    ∧ Action.persistNextWake (clampWake d.nextWakeSecs) ∈ (fetchAndDisplayImage ctx env).2
    ∧ Action.persistState STATE_FETCHING_IMAGE ERROR_NONE ∈ (fetchAndDisplayImage ctx env).2
    ∧ Action.deepSleepStart ∈ (fetchAndDisplayImage ctx env).2
    ∧ Action.espRestart ∉ (fetchAndDisplayImage ctx env).2 := by
  have htv := rtcActions_mem d.time
  refine ⟨?_, ?_, ?_, ?_, ?_, ?_⟩ <;>
    simp [fetchAndDisplayImage, checkAndReconnectWifi, scheduleSleep, setState,
      hconn, hb, hp, hr, hnr]
  · intro u hu
    exact absurd (htv _ hu) (by simp)
  · intro pth hpm
    exact absurd (htv _ hpm) (by simp)
  · intro hm
    exact absurd (htv _ hm) (by simp)

/-- Witness for C8 at a concrete `NO_REFRESH` directive. -/
theorem c8_no_refresh_witness :
    fetchNoRefreshW.respParse = some dirNoRefreshW ∧ dirNoRefreshW.imageUrl = "NO_REFRESH"
    ∧ ((∀ u, Action.download u ∉ (fetchAndDisplayImage ctx0W fetchNoRefreshW).2)
       ∧ (∀ pth, Action.render pth ∉ (fetchAndDisplayImage ctx0W fetchNoRefreshW).2)
       ∧ Action.persistNextWake (clampWake dirNoRefreshW.nextWakeSecs)
           ∈ (fetchAndDisplayImage ctx0W fetchNoRefreshW).2
       ∧ Action.persistState STATE_FETCHING_IMAGE ERROR_NONE
           ∈ (fetchAndDisplayImage ctx0W fetchNoRefreshW).2
       ∧ Action.deepSleepStart ∈ (fetchAndDisplayImage ctx0W fetchNoRefreshW).2
       ∧ Action.espRestart ∉ (fetchAndDisplayImage ctx0W fetchNoRefreshW).2) :=
  ⟨rfl, rfl, c8_no_refresh ctx0W fetchNoRefreshW dirNoRefreshW rfl rfl rfl rfl rfl⟩

/-! ### Claim C10 -/

/-- Claim C10: right after boot `lastWifiCheckTime` is zero, so while
`millis()` is below the 60000 ms cool-down any disconnected-state call to
`checkAndReconnectWifi` returns false immediately — no credential
re-resolution, no reconnect attempt, no state change — and a Wi-Fi drop
before the display session therefore makes `fetchAndDisplayImage` restart
the device instead of reconnecting. -/
theorem c10_cooldown_restart (ctx : Ctx) (env : FetchEnv)
    (hlast : ctx.lastWifiCheckTime = 0)
    (hconn : env.wifi.connected = false)
    (hnow : env.wifi.now < 60000) :
    (checkAndReconnectWifi ctx env.wifi).1 = false
    ∧ (checkAndReconnectWifi ctx env.wifi).2.1 = ctx
    ∧ (checkAndReconnectWifi ctx env.wifi).2.2 = []
    ∧ Action.espRestart ∈ (fetchAndDisplayImage ctx env).2
    ∧ Action.deepSleepStart ∉ (fetchAndDisplayImage ctx env).2
    ∧ (∀ s pw, Action.wifiConnectAttempt s pw ∉ (fetchAndDisplayImage ctx env).2) := by
  have hsub : sub32 env.wifi.now 0 = env.wifi.now := by
    unfold sub32
    rw [Nat.zero_mod, Nat.sub_zero, Nat.add_mod_right]
    exact Nat.mod_eq_of_lt (lt_trans hnow (by norm_num))
  have hcool : sub32 env.wifi.now ctx.lastWifiCheckTime < WIFI_CHECK_INTERVAL := by
    rw [hlast, hsub]
    exact hnow
  refine ⟨?_, ?_, ?_, ?_, ?_, ?_⟩ <;>
    simp [fetchAndDisplayImage, checkAndReconnectWifi, setState, hconn, hlast, hsub,
      hnow, WIFI_CHECK_INTERVAL]

/-- Witness for C10: a drop at 1000 ms after boot restarts the device. -/
theorem c10_cooldown_restart_witness :
    ctx0W.lastWifiCheckTime = 0 ∧ fetchDropW.wifi.connected = false
    ∧ fetchDropW.wifi.now < 60000
    ∧ ((checkAndReconnectWifi ctx0W fetchDropW.wifi).1 = false
       ∧ (checkAndReconnectWifi ctx0W fetchDropW.wifi).2.1 = ctx0W
       ∧ (checkAndReconnectWifi ctx0W fetchDropW.wifi).2.2 = []
       ∧ Action.espRestart ∈ (fetchAndDisplayImage ctx0W fetchDropW).2
       ∧ Action.deepSleepStart ∉ (fetchAndDisplayImage ctx0W fetchDropW).2
       ∧ (∀ s pw, Action.wifiConnectAttempt s pw ∉ (fetchAndDisplayImage ctx0W fetchDropW).2)) :=
  ⟨rfl, rfl, by decide, c10_cooldown_restart ctx0W fetchDropW rfl rfl (by decide)⟩

/-! ### Claim C4 -/

/-- Claim C4, counterexample: the initial-connect-failure path of `setup`
(credentials present, 30s connect attempt times out) arms the wake sources
and enters deep sleep with no radio disconnect, mode change, or power-off
at all, so the claim that the connectivity shutdown precedes every deep
sleep entry is false. -/
theorem c4_counterexample :
    shutdownBeforeSleep (setup prefsW setupNoConnW).2 = false
    ∧ Action.deepSleepStart ∈ (setup prefsW setupNoConnW).2 := by
  have hbatt : ¬ voltageToPercent (4 : ℚ) < BATTERY_CRITICAL_PCT := by
    norm_num [voltageToPercent, BATTERY_CRITICAL_PCT]
  have hss : ¬ (prefsW.wifiSsid = "") := by decide
  constructor <;>
    simp [setup, setupCtx, setupNoConnW, prefsW, readWiFiCredentialsFromSD, setState,
      hbatt, hss, shutdownBeforeSleep, shutdownScan, shutdownSeen, isDeepSleep]

/-- Claim C4, amended: the radio shutdown (disconnect, `WIFI_OFF`, radio
power-off) precedes every deep sleep entry on the battery-critical path of
`setup` and on every path through `fetchAndDisplayImage` (the in-RAM config
erase, `disconnect(true)`, happens only on the latter's success path); the
credentials-missing and initial-connect-failure sleep paths of `setup` omit
the shutdown entirely. -/
theorem c4_amended :
    (∀ (ctx : Ctx) (env : FetchEnv),
       shutdownBeforeSleep (fetchAndDisplayImage ctx env).2 = true)
    ∧ (∀ (p : Prefs) (env : SetupEnv),
       voltageToPercent env.batteryVoltage < BATTERY_CRITICAL_PCT →
       shutdownBeforeSleep (setup p env).2 = true) := by
  constructor
  · intro ctx env
    unfold shutdownBeforeSleep
    rcases hw : (checkAndReconnectWifi (setState ctx STATE_FETCHING_IMAGE ERROR_NONE).1 env.wifi).1
      with _ | _ <;> simp only [setState] at hw
    · have hns : Action.deepSleepStart ∉ (fetchAndDisplayImage ctx env).2 := by
        simp [fetchAndDisplayImage, hw, setState]
        exact no_sleep_wifi _ _
      exact scan_true_of_no_sleep _ _ hns
    · rcases hb : env.httpBeginOk with _ | _
      · simp [fetchAndDisplayImage, hw, hb, setState]
        exact scan_cons_no_sleep _ _ (by rfl)
          (scan_append_no_sleep _ _ (no_sleep_wifi _ _) (scan_errorRetrySleep _ _)) _
      · by_cases hp : env.postCode = 200
        · rcases hre : env.respParse with _ | d
          · simp [fetchAndDisplayImage, hw, hb, hp, hre, setState]
            exact scan_cons_no_sleep _ _ (by rfl)
              (scan_append_no_sleep _ _ (no_sleep_wifi _ _)
                (scan_cons_no_sleep _ _ (by rfl) (scan_errorRetrySleep _ _))) _
          · by_cases hnr : d.imageUrl = "NO_REFRESH"
            · simp [fetchAndDisplayImage, hw, hb, hp, hre, hnr, setState]
              refine scan_scheduleSleep _ _ _ ?_ _
              simp
              exact ⟨no_sleep_wifi _ _, no_sleep_rtc _⟩
            · by_cases hval : d.imageUrl ≠ ""
                  ∧ (startsWithStr d.imageUrl "http://" = true
                     ∨ startsWithStr d.imageUrl "https://" = true)
              · rcases hdl : env.downloadOk with _ | _
                · simp [fetchAndDisplayImage, hw, hb, hp, hre, hnr, hval, hdl, setState]
                  exact scan_cons_no_sleep _ _ (by rfl)
                    (scan_append_no_sleep _ _ (no_sleep_wifi _ _)
                      (scan_cons_no_sleep _ _ (by rfl)
                        (scan_append_no_sleep _ _ (no_sleep_rtc _)
                          (scan_cons_no_sleep _ _ (by rfl) (scan_errorRetrySleep _ _))))) _
                · rcases hrd : env.renderOk with _ | _
                  · simp [fetchAndDisplayImage, hw, hb, hp, hre, hnr, hval, hdl, hrd, setState]
                    exact scan_cons_no_sleep _ _ (by rfl)
                      (scan_append_no_sleep _ _ (no_sleep_wifi _ _)
                        (scan_cons_no_sleep _ _ (by rfl)
                          (scan_append_no_sleep _ _ (no_sleep_rtc _)
                            (scan_cons_no_sleep _ _ (by rfl)
                              (scan_cons_no_sleep _ _ (by rfl)
                                (scan_cons_no_sleep _ _ (by rfl) (scan_errorRetrySleep _ _))))))) _
                  · simp [fetchAndDisplayImage, hw, hb, hp, hre, hnr, hval, hdl, hrd, setState]
                    refine scan_scheduleSleep _ _ _ ?_ _
                    simp
                    exact ⟨no_sleep_wifi _ _, no_sleep_rtc _⟩
              · simp [fetchAndDisplayImage, hw, hb, hp, hre, hnr, hval, setState]
                exact scan_cons_no_sleep _ _ (by rfl)
                  (scan_append_no_sleep _ _ (no_sleep_wifi _ _)
                    (scan_cons_no_sleep _ _ (by rfl)
                      (scan_append_no_sleep _ _ (no_sleep_rtc _)
                        (scan_errorRetrySleep _ _)))) _
        · simp [fetchAndDisplayImage, hw, hb, hp, setState]
          exact scan_cons_no_sleep _ _ (by rfl)
            (scan_append_no_sleep _ _ (no_sleep_wifi _ _)
              (scan_cons_no_sleep _ _ (by rfl) (scan_errorRetrySleep _ _))) _
  · intro p env hcrit
    simp [setup, setupCtx, setState, hcrit, shutdownBeforeSleep, shutdownScan,
      shutdownSeen, isDeepSleep]

/-- Witness for C4's amended claim: the battery-critical sleep and a
`NO_REFRESH` session sleep both shut the radio down first. -/
theorem c4_amended_witness :
    voltageToPercent setupBattW.batteryVoltage < BATTERY_CRITICAL_PCT
    ∧ shutdownBeforeSleep (setup prefsW setupBattW).2 = true
    ∧ shutdownBeforeSleep (fetchAndDisplayImage ctx0W fetchNoRefreshW).2 = true :=
  ⟨by norm_num [setupBattW, voltageToPercent, BATTERY_CRITICAL_PCT],
   c4_amended.2 prefsW setupBattW
     (by norm_num [setupBattW, voltageToPercent, BATTERY_CRITICAL_PCT]),
   c4_amended.1 ctx0W fetchNoRefreshW⟩

/-! ### Claim C6 -/

/-- Claim C6: the update checker compares the trimmed manifest body to the
compiled-in version by exact string equality.  An equal string causes no
update attempt; any mismatch attempts the insecure (`http://`) transport
first and the secure (`https://`) transport exactly when the insecure
attempt failed; a failed application persists `UpdateFailed` without
restarting or sleeping, and the boot then continues into the display
session's telemetry POST rather than retrying the update in the same
cycle. -/
theorem c6_update_checker (ctx : Ctx) (env : OtaEnv)
    (hconn : env.wifi.connected = true)
    (hb : env.beginOk = true) (hc : env.getCode = 200) :
    (strTrimS env.versionBody = currentFirmwareVersion →
       (checkOTAUpdate ctx env).2.filter isOtaAttemptB = [])
    ∧ (strTrimS env.versionBody ≠ currentFirmwareVersion →
       (checkOTAUpdate ctx env).2.filter isOtaAttemptB =
         (if env.httpAttempt = UpdateRet.failed then
            [Action.otaAttempt
               "http://s3.us-west-1.amazonaws.com/fridge-thing/firmware/inkplate-6color.ino.bin"
               false,
             Action.otaAttempt firmwareURL true]
          else
            [Action.otaAttempt
               "http://s3.us-west-1.amazonaws.com/fridge-thing/firmware/inkplate-6color.ino.bin"
               false]))
    ∧ (strTrimS env.versionBody ≠ currentFirmwareVersion →
       otaFinalRet env = UpdateRet.failed →
       Action.persistState STATE_UPDATING_FW ERROR_OTA_UPDATE ∈ (checkOTAUpdate ctx env).2
       ∧ Action.espRestart ∉ (checkOTAUpdate ctx env).2
       ∧ Action.deepSleepStart ∉ (checkOTAUpdate ctx env).2)
    ∧ (∀ (p : Prefs) (senv : SetupEnv),
         ¬ voltageToPercent senv.batteryVoltage < BATTERY_CRITICAL_PCT →
         senv.sdInitOk = false → ¬ p.wifiSsid = "" →
         senv.initialConnectOk = true →
         otaFinalRet senv.ota = UpdateRet.failed →
         senv.fetch.wifi.connected = true → senv.fetch.httpBeginOk = true →
         Action.httpPost (apiUrl senv.fetch) ∈ (setup p senv).2) := by
  have hurl : replaceS firmwareURL "https://" "http://" =
      "http://s3.us-west-1.amazonaws.com/fridge-thing/firmware/inkplate-6color.ino.bin" := by
    decide
  refine ⟨?_, ?_, ?_, ?_⟩
  · intro heq
    simp [checkOTAUpdate, checkAndReconnectWifi, setState, hconn, hb, hc, heq, isOtaAttemptB]
  · intro hne
    rcases hh : env.httpAttempt <;> rcases hs : env.httpsAttempt <;>
      simp [checkOTAUpdate, checkAndReconnectWifi, setState, otaFinalRet,
        hconn, hb, hc, hne, hh, hs, hurl, isOtaAttemptB, List.filter]
  · intro hne hfail
    rcases hh : env.httpAttempt <;> rcases hs : env.httpsAttempt <;>
      rw [otaFinalRet, hh, hs] at hfail <;> simp at hfail <;>
      simp [checkOTAUpdate, checkAndReconnectWifi, setState, otaFinalRet,
        hconn, hb, hc, hne, hh, hs]
  · intro p senv hbatt hsd hssid hic hota hfc hfb
    have hread : readWiFiCredentialsFromSD (setupCtx p senv) senv.sdWifiFile =
        (none, setupCtx p senv, []) := by
      simp [readWiFiCredentialsFromSD, setupCtx, hsd]
    have hps : (setupCtx p senv).prefs.wifiSsid = p.wifiSsid := rfl
    simp [setup, hread, hps, hbatt, hssid, hic, setState]
    first
      | exact httpPost_mem_fetch _ senv.fetch hfc hfb
      | exact Or.inr (httpPost_mem_fetch _ senv.fetch hfc hfb)

/-- Witness for C6: a mismatching manifest ("1.9" vs "1.8") with both
transports failing, inside a boot that then reaches the telemetry POST. -/
theorem c6_update_checker_witness :
    otaFailW.wifi.connected = true ∧ otaFailW.beginOk = true ∧ otaFailW.getCode = 200
    ∧ strTrimS otaFailW.versionBody ≠ currentFirmwareVersion
    ∧ (checkOTAUpdate ctx0W otaFailW).2.filter isOtaAttemptB =
        (if otaFailW.httpAttempt = UpdateRet.failed then
           [Action.otaAttempt
              "http://s3.us-west-1.amazonaws.com/fridge-thing/firmware/inkplate-6color.ino.bin"
              false,
            Action.otaAttempt firmwareURL true]
         else
           [Action.otaAttempt
              "http://s3.us-west-1.amazonaws.com/fridge-thing/firmware/inkplate-6color.ino.bin"
              false])
    ∧ (Action.persistState STATE_UPDATING_FW ERROR_OTA_UPDATE ∈ (checkOTAUpdate ctx0W otaFailW).2
       ∧ Action.espRestart ∉ (checkOTAUpdate ctx0W otaFailW).2
       ∧ Action.deepSleepStart ∉ (checkOTAUpdate ctx0W otaFailW).2)
    ∧ Action.httpPost (apiUrl setupOkW.fetch) ∈ (setup prefsW setupOkW).2 :=
  ⟨rfl, rfl, rfl, by decide,
   (c6_update_checker ctx0W otaFailW rfl rfl rfl).2.1 (by decide),
   (c6_update_checker ctx0W otaFailW rfl rfl rfl).2.2.1 (by decide) (by decide),
   (c6_update_checker ctx0W otaFailW rfl rfl rfl).2.2.2 prefsW setupOkW
     (by norm_num [setupOkW, voltageToPercent, BATTERY_CRITICAL_PCT])
     rfl (by decide) rfl (by decide) rfl rfl⟩

end FridgeThing
